import Mathlib

/-!
Verification development for the slack_connect_ai browser client.

The development shallowly embeds the code of the repository:
`services/geminiService.ts` (two revisions, called v0 and v1 below),
`services/slackService.ts`, and the `App.tsx` session controller
(two revisions of the token-discovery scan, the persisted-credential
handling, and the send handler).  Remote calls (fetch, Gemini
generateContent) are modelled by passing their outcome explicitly.
-/

namespace SlackConnect

/-- A JavaScript exception value: whether it is a TypeError (the class the
browser fetch raises on transport failure) and its message string. -/
structure JsError where
  isTypeError : Bool
  message : String
deriving DecidableEq

/-- Result of a JavaScript async function: it either resolves with a value
or rejects with a thrown error. -/
inductive JsResult (ε α : Type) where
  | ok (value : α)
  | thrown (e : ε)
deriving DecidableEq

/-- JavaScript `o || d` on an optional string: `undefined`/`null` and the
empty string are falsy and fall through to the default. -/
def jsOrString (o : Option String) (d : String) : String :=
  match o with
  | none => d
  | some s => if s = "" then d else s

/-- JavaScript falsiness of an optional string (`!x`): true on
`undefined`/`null` and on the empty string. -/
def jsFalsyOpt (o : Option String) : Bool :=
  match o with
  | none => true
  | some s => s = ""

/-! ## GeminiService (RefinementClient)

`refineMessage` is embedded with the outcome of the remote
`generateContent` call passed in: the call either throws or returns a
response whose `text` field may be absent. -/

/-- Outcome of the remote `ai.models.generateContent` call. -/
inductive GenOutcome where
  | throws (msg : String)
  | returns (text : Option String)
deriving DecidableEq

/-- `GeminiService.refineMessage`, first revision (src/unnamed/part_000):
no key check and no try/catch around the generation call; a thrown
generation error propagates to the caller; `response.text || message`
falls back to the input only when the text is absent or empty. -/
def refineMessage_v0 (outcome : GenOutcome) (message : String) :
    JsResult String String :=
  match outcome with
  | .throws e => .thrown e
  | .returns t => .ok (jsOrString t message)

/-- `GeminiService.refineMessage`, second revision (src/unnamed/part_001):
returns the input when the API key is falsy (before any network call),
wraps the generation call in try/catch returning the input on error, and
falls back to the input on an absent or empty response text. -/
def refineMessage_v1 (apiKey : Option String) (outcome : GenOutcome)
    (message : String) : JsResult String String :=
  if jsFalsyOpt apiKey then .ok message
  else
    match outcome with
    | .throws _ => .ok message
    | .returns t => .ok (jsOrString t message)

/-! ## SlackService (MessagingClient) -/

def SLACK_API_BASE : String := "https://slack.com/api"

def DEFAULT_PROXY : String := "https://corsproxy.io/?"

/-- The canonical upstream URL: `${SLACK_API_BASE}/${endpoint}`. -/
def targetUrl (endpoint : String) : String :=
  SLACK_API_BASE ++ "/" ++ endpoint

/-- `this.proxyUrl ? proxyUrl + targetUrl : targetUrl` — a null or empty
proxy URL is falsy in JavaScript, so the canonical URL is used as is. -/
def finalUrl (proxyUrl : Option String) (endpoint : String) : String :=
  match proxyUrl with
  | some p => if p = "" then targetUrl endpoint else p ++ targetUrl endpoint
  | none => targetUrl endpoint

/-- A Slack channel as in `types.ts` (fields the client reads). -/
structure SlackChannel where
  id : String
  name : String
  is_private : Bool
deriving DecidableEq

/-- Decoded JSON envelope returned by the Slack API. -/
structure SlackPayload where
  ok : Bool
  error : Option String
  channels : Option (List SlackChannel)
deriving DecidableEq

/-- What `response.json()` does on a given response body: it decodes to a
payload or throws a decode exception (a SyntaxError, not a TypeError, for
malformed JSON). -/
inductive BodyResult where
  | decoded (p : SlackPayload)
  | decodeError (e : JsError)
deriving DecidableEq

/-- An HTTP response: numeric status and the body decoding behaviour. -/
structure HttpResponse where
  status : Nat
  body : BodyResult
deriving DecidableEq

/-- Outcome of the `fetch` call itself: a transport-level rejection
(the browser raises a TypeError when the request never produced an HTTP
status) or an HTTP response. -/
inductive FetchOutcome where
  | transportError (msg : String)
  | response (r : HttpResponse)
deriving DecidableEq

/-- `Response.ok` of the fetch API: status in the inclusive range 200–299. -/
def responseOk (status : Nat) : Bool :=
  200 ≤ status && status ≤ 299

/-- Body of the try block of `SlackService.request`: throw `HTTP_<status>`
on a non-success status, propagate a JSON decode exception, throw
`data.error || 'slack_api_error'` when the envelope has `ok:false`, and
return the payload otherwise.  A transport rejection of `fetch` itself is
a TypeError. -/
def requestTry (outcome : FetchOutcome) : JsResult JsError SlackPayload :=
  match outcome with
  | .transportError msg => .thrown { isTypeError := true, message := msg }
  | .response r =>
    if responseOk r.status then
      match r.body with
      | .decodeError e => .thrown e
      | .decoded data =>
        if data.ok then .ok data
        else .thrown { isTypeError := false,
                       message := jsOrString data.error "slack_api_error" }
    else .thrown { isTypeError := false,
                   message := "HTTP_" ++ toString r.status }

/-- `SlackService.request`: the try block above, then the catch clause
`if (error instanceof TypeError) throw new Error('CORS_ERROR'); throw error`. -/
def request (outcome : FetchOutcome) : JsResult JsError SlackPayload :=
  match requestTry outcome with
  | .ok d => .ok d
  | .thrown e =>
    if e.isTypeError then .thrown { isTypeError := false, message := "CORS_ERROR" }
    else .thrown e

/-- `SlackService.fetchChannels`: `(await request(...)).channels || []`
(an array value is truthy in JavaScript even when empty, so a present
`channels` field is returned as is and an absent one becomes `[]`). -/
def fetchChannels (outcome : FetchOutcome) : JsResult JsError (List SlackChannel) :=
  match request outcome with
  | .thrown e => .thrown e
  | .ok data => .ok (data.channels.getD [])

/-- The two error classes the App assigns in its catch handlers. -/
inductive ErrClass where
  | AUTH
  | CORS
deriving DecidableEq

/-- The classification made by `fetchChannels`/`handleConnect` callers in
App.tsx: `err.message === 'CORS_ERROR'` selects the CORS class, anything
else the AUTH class. -/
def classifyFetchError (e : JsError) : ErrClass :=
  if e.message = "CORS_ERROR" then ErrClass.CORS else ErrClass.AUTH

/-! ## TokenScanner

App.tsx has two revisions of the token-discovery scan.  The first
(`scanForTokens`) matches the regular expression
`xox[bap]-[a-zA-Z0-9-]+` anywhere inside each stored value and records
the matched substring; the second (`scanLocalStorage`) only tests whether
the whole value starts with `xoxb-` or `xoxp-` and records the whole
value.  The regular expression is embedded with JavaScript `match`
semantics for this pattern: the leftmost position at which the pattern
matches wins, and the greedy `+` extends the match as far as possible. -/

/-- A character of the class `[a-zA-Z0-9-]`. -/
def isTokenChar (c : Char) : Bool :=
  ('a' ≤ c && c ≤ 'z') || ('A' ≤ c && c ≤ 'Z') || ('0' ≤ c && c ≤ '9') || c = '-'

/-- The character class `[bap]` after the literal `xox`. -/
def slackKindChar (c : Char) : Bool :=
  c = 'b' || c = 'a' || c = 'p'

/-- Greedy run of `[a-zA-Z0-9-]` characters. -/
def takeTokenChars (l : List Char) : List Char :=
  l.takeWhile isTokenChar

/-- Match of `xox[bap]-[a-zA-Z0-9-]+` anchored at the head of the list:
`some` returns the matched characters (a run of at least one token
character is required after the hyphen). -/
def matchAt (l : List Char) : Option (List Char) :=
  match l with
  | a :: b :: c :: d :: e :: rest =>
    if a = 'x' ∧ b = 'o' ∧ c = 'x' ∧ slackKindChar d ∧ e = '-' then
      match takeTokenChars rest with
      | [] => none
      | f :: run => some (a :: b :: c :: d :: e :: f :: run)
    else none
  | _ => none

/-- Leftmost match of the pattern anywhere in the list, as JavaScript
`String.prototype.match` with a non-global regular expression. -/
def findTokenMatch : List Char → Option (List Char)
  | [] => none
  | c :: rest =>
    match matchAt (c :: rest) with
    | some m => some m
    | none => findTokenMatch rest

/-- `val.match(/xox[bap]-[a-zA-Z0-9-]+/)`, returning the matched
substring (`match[0]`) when the pattern occurs in the string. -/
def jsMatchSlack (s : String) : Option String :=
  (findTokenMatch s.data).map String.mk

/-- Decidable test used below: does the pattern occur at the head of the
list (five literal or class characters followed by one token character). -/
def hasSlackAt (l : List Char) : Bool :=
  match l with
  | a :: b :: c :: d :: e :: f :: _ =>
    a = 'x' && b = 'o' && c = 'x' && slackKindChar d && e = '-' && isTokenChar f
  | _ => false

/-- Decidable test: does the pattern occur anywhere in the list. -/
def hasSlackToken : List Char → Bool
  | [] => false
  | c :: rest => hasSlackAt (c :: rest) || hasSlackToken rest

/-- One entry of the browser localStorage snapshot: `localStorage.key(i)`
and the corresponding `getItem` value, each possibly null. -/
structure StoreEntry where
  key : Option String
  val : Option String
deriving DecidableEq

/-- A discovered (storage key, token string) pair as pushed by the scans. -/
structure DiscoveredToken where
  key : String
  value : String
deriving DecidableEq

/-- One loop iteration of the first-revision scan: skip falsy keys and
values, match the pattern inside the value, and keep the matched
substring when it differs from the active token. -/
def scanEntry (token : String) (e : StoreEntry) : Option DiscoveredToken :=
  match e.key with
  | none => none
  | some k =>
    if k = "" then none
    else
      match e.val with
      | none => none
      | some v =>
        if v = "" then none
        else
          match jsMatchSlack v with
          | some m => if m = token then none else some ⟨k, m⟩
          | none => none

/-- `scanForTokens` (App.tsx first revision): iterate the store in order
and collect the matches. -/
def scanForTokens (store : List StoreEntry) (token : String) :
    List DiscoveredToken :=
  store.filterMap (scanEntry token)

/-- One loop iteration of the second-revision scan: keep the whole value
when it starts with `xoxb-` or `xoxp-` and differs from the active
token. -/
def scanEntryB (token : String) (e : StoreEntry) : Option DiscoveredToken :=
  match e.key with
  | none => none
  | some k =>
    if k = "" then none
    else
      match e.val with
      | none => none
      | some v =>
        if v = "" then none
        else
          if (("xoxb-".data.isPrefixOf v.data || "xoxp-".data.isPrefixOf v.data)
              && v != token) then some ⟨k, v⟩
          else none

/-- `scanLocalStorage` (App.tsx second revision). -/
def scanLocalStorage (store : List StoreEntry) (token : String) :
    List DiscoveredToken :=
  store.filterMap (scanEntryB token)

/-! ## SessionController: persisted credential and proxy flag

`handleConnect` writes the two localStorage keys `slack_token` and
`slack_use_proxy` only after `testConnection` succeeds; `handleLogout`
removes both.  No other code touches those keys. -/

/-- The durable store restricted to the two keys the controller owns. -/
structure PersistedStore where
  slack_token : Option String
  slack_use_proxy : Option String
deriving DecidableEq

/-- The logged-out initial store: neither key present. -/
def initStore : PersistedStore := ⟨none, none⟩

/-- Events of the session controller that can touch the durable store. -/
inductive SessionEvent where
  | connectSuccess (cleanToken : String) (activeProxy : Bool)
  | connectFailure (e : JsError)
  | logout
  | refreshChannels
  | sendAction
  | refineAction
deriving DecidableEq

/-- Effect of one event on the durable store: a successful connect writes
both keys (`activeProxy.toString()` stores the strings true/false), a
logout removes both, and every other event leaves the store unchanged. -/
def stepStore (s : PersistedStore) (ev : SessionEvent) : PersistedStore :=
  match ev with
  | .connectSuccess t p =>
    { slack_token := some t,
      slack_use_proxy := some (if p then "true" else "false") }
  | .logout => { slack_token := none, slack_use_proxy := none }
  | _ => s

/-- The durable store after a sequence of events from the initial state. -/
def runStore (evs : List SessionEvent) : PersistedStore :=
  evs.foldl stepStore initStore

/-! ## SessionController: send handler and the delivered toast -/

/-- The status enum of `types.ts`. -/
inductive AppStatus where
  | IDLE
  | LOADING
  | SUCCESS
  | ERROR
deriving DecidableEq

/-- The in-memory UI state touched by `handleSendMessage`: the composed
message, the channel list, the selected channel, the success toast flag
with its pending timeout (in seconds), and the status. -/
structure UIState where
  message : String
  channels : List SlackChannel
  selectedChannel : Option SlackChannel
  successToast : Bool
  toastTimer : Option Nat
  status : AppStatus
deriving DecidableEq

/-- `handleSendMessage` given the outcome of `sendMessage`: it returns
early unless a channel is selected and the message is non-empty; on
success it clears the message, shows the toast, schedules the
`setTimeout(..., 3000)` clearing (3 time units), and sets SUCCESS; on
failure it sets ERROR. -/
def handleSendMessage (s : UIState) (outcome : JsResult JsError SlackPayload) :
    UIState :=
  if s.selectedChannel.isNone || s.message = "" then s
  else
    match outcome with
    | .ok _ =>
      { s with message := "", successToast := true,
               toastTimer := some 3, status := AppStatus.SUCCESS }
    | .thrown _ => { s with status := AppStatus.ERROR }

/-- One elapsed time unit: a scheduled toast timeout counts down and, on
expiry, hides the toast. -/
def tickToast (s : UIState) : UIState :=
  match s.toastTimer with
  | none => s
  | some n =>
    if n ≤ 1 then { s with successToast := false, toastTimer := none }
    else { s with toastTimer := some (n - 1) }

/-! ## Helper lemmas -/

/-- A message of the form `HTTP_<status>` is never the reserved transport
marker string. -/
lemma httpMsg_ne_cors (s : String) : ("HTTP_" ++ s) ≠ "CORS_ERROR" := by
  intro h
  have h2 : ("HTTP_" ++ s).data = "CORS_ERROR".data := by rw [h]
  rw [String.data_append] at h2
  simp at h2

/-- The anchored match succeeds exactly when the pattern occurs at the
head of the list. -/
lemma matchAt_isSome (l : List Char) : (matchAt l).isSome = hasSlackAt l := by
  rcases l with _ | ⟨a, _ | ⟨b, _ | ⟨c, _ | ⟨d, _ | ⟨e, rest⟩⟩⟩⟩⟩
  · rfl
  · rfl
  · rfl
  · rfl
  · rfl
  · rcases rest with _ | ⟨f, rest⟩
    · simp only [matchAt, takeTokenChars, List.takeWhile_nil]
      split <;> rfl
    · by_cases ha : a = 'x' <;> by_cases hb : b = 'o' <;> by_cases hc : c = 'x' <;>
        by_cases hd : slackKindChar d = true <;> by_cases he : e = '-' <;>
        by_cases hf : isTokenChar f = true <;>
        simp [matchAt, hasSlackAt, takeTokenChars, List.takeWhile_cons,
              ha, hb, hc, hd, he, hf]

/-- A successful anchored match returns an initial segment of the list. -/
lemma matchAt_isPrefixOfInput (l m : List Char) (h : matchAt l = some m) :
    m <+: l := by
  rcases l with _ | ⟨a, _ | ⟨b, _ | ⟨c, _ | ⟨d, _ | ⟨e, rest⟩⟩⟩⟩⟩ <;>
    simp only [matchAt] at h
  · exact absurd h (by simp)
  · exact absurd h (by simp)
  · exact absurd h (by simp)
  · exact absurd h (by simp)
  · exact absurd h (by simp)
  · by_cases hP : (a = 'x' ∧ b = 'o' ∧ c = 'x' ∧ slackKindChar d = true ∧ e = '-')
    · rw [if_pos hP] at h
      cases htk : takeTokenChars rest with
      | nil => rw [htk] at h; exact absurd h (by simp)
      | cons f run =>
        rw [htk] at h
        simp only [Option.some.injEq] at h
        subst h
        obtain ⟨t, ht⟩ := List.takeWhile_prefix (l := rest) (p := isTokenChar)
        refine ⟨t, ?_⟩
        have ht2 : (f :: run) ++ t = rest := by
          rw [← htk]; exact ht
        simp [← ht2]
    · rw [if_neg hP] at h
      exact absurd h (by simp)

/-- The scan of the whole list succeeds exactly when the pattern occurs
somewhere in the list. -/
lemma findTokenMatch_isSome (l : List Char) :
    (findTokenMatch l).isSome = hasSlackToken l := by
  induction l with
  | nil => rfl
  | cons c rest ih =>
    simp only [findTokenMatch, hasSlackToken, ← matchAt_isSome]
    cases hm : matchAt (c :: rest) <;> simp [hm, ih]

/-- A successful scan returns a contiguous substring of the input. -/
lemma findTokenMatch_infix (l m : List Char) (h : findTokenMatch l = some m) :
    m <:+: l := by
  induction l with
  | nil => simp [findTokenMatch] at h
  | cons c rest ih =>
    simp only [findTokenMatch] at h
    cases hm : matchAt (c :: rest) with
    | some m0 =>
      rw [hm] at h
      simp only [Option.some.injEq] at h
      subst h
      exact (matchAt_isPrefixOfInput _ _ hm).isInfix
    | none =>
      rw [hm] at h
      exact List.infix_cons (ih h)

/-- Inversion of one scan-loop iteration of the first revision. -/
lemma scanEntry_eq_some (token : String) (e : StoreEntry) (p : DiscoveredToken)
    (h : scanEntry token e = some p) :
    e.key = some p.key ∧
      ∃ v, e.val = some v ∧ jsMatchSlack v = some p.value ∧ p.value ≠ token := by
  rcases e with ⟨ko, vo⟩
  cases ko with
  | none => exact absurd h (by simp [scanEntry])
  | some k =>
    by_cases hk : k = ""
    · exact absurd h (by simp [scanEntry, hk])
    · cases vo with
      | none => exact absurd h (by simp [scanEntry, hk])
      | some v =>
        by_cases hv : v = ""
        · exact absurd h (by simp [scanEntry, hk, hv])
        · simp only [scanEntry, if_neg hk, if_neg hv] at h
          cases hm : jsMatchSlack v with
          | none => rw [hm] at h; exact absurd h (by simp)
          | some m =>
            simp only [hm] at h
            by_cases hmt : m = token
            · rw [if_pos hmt] at h; exact absurd h (by simp)
            · rw [if_neg hmt] at h
              simp only [Option.some.injEq] at h
              subst h
              exact ⟨rfl, v, rfl, hm, hmt⟩

/-- One controller event preserves the both-or-neither shape of the two
persisted keys. -/
lemma stepStore_preserves (s : PersistedStore) (ev : SessionEvent)
    (h : s.slack_token.isSome = s.slack_use_proxy.isSome) :
    (stepStore s ev).slack_token.isSome = (stepStore s ev).slack_use_proxy.isSome := by
  cases ev <;> simp [stepStore, h]

/-- The both-or-neither shape is preserved along any event sequence. -/
lemma foldl_store_inv (evs : List SessionEvent) (s : PersistedStore)
    (h : s.slack_token.isSome = s.slack_use_proxy.isSome) :
    (evs.foldl stepStore s).slack_token.isSome
      = (evs.foldl stepStore s).slack_use_proxy.isSome := by
  induction evs generalizing s with
  | nil => simpa using h
  | cons ev rest ih =>
    simpa using ih (stepStore s ev) (stepStore_preserves s ev h)

/-! ## Claim theorems -/

/-- Claim C1, counterexample: the first revision of
`GeminiService.refineMessage` (src/unnamed/part_000) propagates a thrown
generation error instead of swallowing it and returning the input, so the
claim "never raises, returns the input on any failure" is false for that
revision at this concrete input. -/
theorem c1_counterexample :
    refineMessage_v0 (GenOutcome.throws "network_error") "hello"
        = JsResult.thrown "network_error" ∧
    refineMessage_v0 (GenOutcome.throws "network_error") "hello"
        ≠ JsResult.ok "hello" := by
  exact ⟨rfl, by decide⟩

/-- Claim C1 (amended to the second revision, src/unnamed/part_001):
`refineMessage` never raises — it always resolves with a string; when the
configured key is falsy the input is returned unchanged without the
outcome of any generation call being consulted; a thrown generation error
and an absent or empty response text also yield the input unchanged. -/
theorem c1_refine_never_raises (apiKey : Option String) (outcome : GenOutcome)
    (msg : String) :
    (∃ r, refineMessage_v1 apiKey outcome msg = JsResult.ok r) ∧
    (jsFalsyOpt apiKey = true →
      refineMessage_v1 apiKey outcome msg = JsResult.ok msg) ∧
    (∀ e, refineMessage_v1 apiKey (GenOutcome.throws e) msg = JsResult.ok msg) ∧
    (refineMessage_v1 apiKey (GenOutcome.returns none) msg = JsResult.ok msg) ∧
    (refineMessage_v1 apiKey (GenOutcome.returns (some "")) msg = JsResult.ok msg) := by
  by_cases h : jsFalsyOpt apiKey = true
  · refine ⟨⟨msg, ?_⟩, fun _ => ?_, fun e => ?_, ?_, ?_⟩ <;>
      simp [refineMessage_v1, h]
  · refine ⟨?_, fun hc => absurd hc h, fun e => ?_, ?_, ?_⟩
    · cases outcome with
      | throws e => exact ⟨msg, by simp [refineMessage_v1, h]⟩
      | returns t => exact ⟨jsOrString t msg, by simp [refineMessage_v1, h]⟩
    · simp [refineMessage_v1, h]
    · simp [refineMessage_v1, h, jsOrString]
    · simp [refineMessage_v1, h, jsOrString]

/-- Claim C1, witness: the missing-key case at a concrete input. -/
theorem c1_witness :
    refineMessage_v1 none (GenOutcome.throws "network down") "hi"
      = JsResult.ok "hi" :=
  (c1_refine_never_raises none (GenOutcome.throws "network down") "hi").2.1 rfl

/-- Claim C2, counterexample: on a value in which the token pattern occurs
strictly inside the string, the first-revision scan reports the matched
substring but the second-revision scan (`scanLocalStorage`, which only
tests a leading `xoxb-`/`xoxp-`) reports nothing, so the claim as stated
is false for that revision at this concrete store. -/
theorem c2_counterexample :
    scanForTokens [⟨some "k", some "see xoxb-1"⟩] "" = [⟨"k", "xoxb-1"⟩] ∧
    scanLocalStorage [⟨some "k", some "see xoxb-1"⟩] "" = [] := by
  decide

/-- Claim C2 (amended to the regex revision `scanForTokens`): on the
concrete store the single match is returned and a match equal to the
active credential is excluded; in general every reported pair differs
from the credential and originates from a store entry whose value
matches; a reported match is a contiguous substring of the stored value;
and whenever the pattern occurs anywhere in a value the matcher finds a
match. -/
theorem c2_scanForTokens_spec :
    (scanForTokens [⟨some "a", some "xoxb-123abc"⟩] "" = [⟨"a", "xoxb-123abc"⟩]) ∧
    (scanForTokens [⟨some "a", some "xoxb-123abc"⟩] "xoxb-123abc" = []) ∧
    (∀ store token p, p ∈ scanForTokens store token → p.value ≠ token) ∧
    (∀ store token p, p ∈ scanForTokens store token →
      ∃ e, e ∈ store ∧ e.key = some p.key ∧
        ∃ v, e.val = some v ∧ jsMatchSlack v = some p.value) ∧
    (∀ v m, jsMatchSlack v = some m → m.data <:+: v.data) ∧
    (∀ v, hasSlackToken v.data = true → (jsMatchSlack v).isSome = true) := by
  refine ⟨by decide, by decide, ?_, ?_, ?_, ?_⟩
  · intro store token p hp
    obtain ⟨e, _, he⟩ := List.mem_filterMap.mp hp
    exact (scanEntry_eq_some token e p he).2.choose_spec.2.2
  · intro store token p hp
    obtain ⟨e, hmem, he⟩ := List.mem_filterMap.mp hp
    obtain ⟨hk, v, hv, hm, _⟩ := scanEntry_eq_some token e p he
    exact ⟨e, hmem, hk, v, hv, hm⟩
  · intro v m hm
    obtain ⟨l, hl, rfl⟩ := Option.map_eq_some'.mp hm
    exact findTokenMatch_infix _ _ hl
  · intro v hv
    rw [← findTokenMatch_isSome] at hv
    rw [jsMatchSlack]
    cases hfm : findTokenMatch v.data with
    | none => rw [hfm] at hv; simp at hv
    | some m => simp

/-- Claim C2, witness: the exclusion property applied at a concrete store
and credential. -/
theorem c2_witness :
    (⟨"a", "xoxb-123abc"⟩ : DiscoveredToken).value ≠ "zzz" :=
  c2_scanForTokens_spec.2.2.1 [⟨some "a", some "xoxb-123abc"⟩] "zzz"
    ⟨"a", "xoxb-123abc"⟩ (by decide)

/-- Claim C3: a transport-level rejection of the fetch call (a TypeError:
the request never produced an HTTP status) is rethrown as the reserved
CORS_ERROR marker, which the caller classifies as the CORS class and
never as the AUTH class. -/
theorem c3_transport_error_is_cors (msg : String) :
    request (FetchOutcome.transportError msg)
        = JsResult.thrown ⟨false, "CORS_ERROR"⟩ ∧
    classifyFetchError ⟨false, "CORS_ERROR"⟩ = ErrClass.CORS ∧
    ErrClass.CORS ≠ ErrClass.AUTH := by
  exact ⟨rfl, rfl, by decide⟩

/-- Claim C4: a non-success HTTP status makes the request throw an error
whose message embeds the numeric status code, and the caller classifies
it as the AUTH class. -/
theorem c4_http_status_is_auth_error (st : Nat) (body : BodyResult)
    (h : responseOk st = false) :
    request (FetchOutcome.response ⟨st, body⟩)
        = JsResult.thrown ⟨false, "HTTP_" ++ toString st⟩ ∧
    classifyFetchError ⟨false, "HTTP_" ++ toString st⟩ = ErrClass.AUTH := by
  constructor
  · simp [request, requestTry, h]
  · simp only [classifyFetchError]
    rw [if_neg (httpMsg_ne_cors (toString st))]

/-- Claim C4, witness: a 404 response at a concrete input. -/
theorem c4_witness :
    request (FetchOutcome.response ⟨404, BodyResult.decoded ⟨true, none, none⟩⟩)
        = JsResult.thrown ⟨false, "HTTP_404"⟩ ∧
    classifyFetchError ⟨false, "HTTP_404"⟩ = ErrClass.AUTH :=
  c4_http_status_is_auth_error 404 (BodyResult.decoded ⟨true, none, none⟩) (by decide)

/-- Claim C5, counterexample: an `ok:false` payload whose error field is
present but empty yields the generic fallback message, not the (empty)
error field itself, so "an error field x yields message x" fails at
x = the empty string. -/
theorem c5_counterexample :
    request (FetchOutcome.response ⟨200, BodyResult.decoded ⟨false, some "", none⟩⟩)
        = JsResult.thrown ⟨false, "slack_api_error"⟩ ∧
    (⟨false, "slack_api_error"⟩ : JsError) ≠ ⟨false, ""⟩ := by
  decide

/-- Claim C5 (amended): on a success status with an `ok:false` payload, a
non-empty error field x is thrown as the message; an absent or empty
error field is replaced by the generic fallback; and the caller
classifies the thrown error as the AUTH class whenever the message is not
the reserved CORS_ERROR marker. -/
theorem c5_ok_false_is_auth_error (st : Nat) (x : String)
    (chs : Option (List SlackChannel)) (hst : responseOk st = true) :
    (x ≠ "" →
      request (FetchOutcome.response ⟨st, BodyResult.decoded ⟨false, some x, chs⟩⟩)
        = JsResult.thrown ⟨false, x⟩) ∧
    (request (FetchOutcome.response ⟨st, BodyResult.decoded ⟨false, none, chs⟩⟩)
        = JsResult.thrown ⟨false, "slack_api_error"⟩) ∧
    (request (FetchOutcome.response ⟨st, BodyResult.decoded ⟨false, some "", chs⟩⟩)
        = JsResult.thrown ⟨false, "slack_api_error"⟩) ∧
    (x ≠ "CORS_ERROR" → classifyFetchError ⟨false, x⟩ = ErrClass.AUTH) := by
  refine ⟨fun hx => ?_, ?_, ?_, fun hc => ?_⟩
  · simp [request, requestTry, hst, jsOrString, hx]
  · simp [request, requestTry, hst, jsOrString]
  · simp [request, requestTry, hst, jsOrString]
  · simp [classifyFetchError, hc]

/-- Claim C5, witness: a concrete `invalid_auth` rejection. -/
theorem c5_witness :
    request (FetchOutcome.response
        ⟨200, BodyResult.decoded ⟨false, some "invalid_auth", none⟩⟩)
      = JsResult.thrown ⟨false, "invalid_auth"⟩ ∧
    classifyFetchError ⟨false, "invalid_auth"⟩ = ErrClass.AUTH := by
  have h := c5_ok_false_is_auth_error 200 "invalid_auth" none (by decide)
  exact ⟨h.1 (by decide), h.2.2.2 (by decide)⟩

/-- Claim C6: with the proxy disabled the request URL is exactly the
canonical upstream URL, and with the proxy enabled it is the proxy URL
followed by the complete canonical URL. -/
theorem c6_request_url (useProxy : Bool) (endpoint : String) :
    finalUrl (if useProxy then some DEFAULT_PROXY else none) endpoint
      = (if useProxy then DEFAULT_PROXY ++ targetUrl endpoint
         else targetUrl endpoint) := by
  cases useProxy with
  | false => rfl
  | true =>
    simp only [if_pos trivial, finalUrl]
    rw [if_neg (by decide)]

/-- Claim C7: a successful connect writes both persisted keys, a logout
removes both, and along every event sequence from the logged-out initial
store the two keys are either both present or both absent. -/
theorem c7_persisted_keys_invariant :
    (∀ s t p, (stepStore s (SessionEvent.connectSuccess t p)).slack_token = some t ∧
      (stepStore s (SessionEvent.connectSuccess t p)).slack_use_proxy
        = some (if p then "true" else "false")) ∧
    (∀ s, (stepStore s SessionEvent.logout).slack_token = none ∧
      (stepStore s SessionEvent.logout).slack_use_proxy = none) ∧
    (∀ evs, (runStore evs).slack_token.isSome
        = (runStore evs).slack_use_proxy.isSome) := by
  refine ⟨fun s t p => ⟨rfl, rfl⟩, fun s => ⟨rfl, rfl⟩, fun evs => ?_⟩
  exact foldl_store_inv evs initStore rfl

/-- Claim C8: a successful send from a state with a selected channel and
a non-empty message clears the message, leaves the channel list and the
selected channel unchanged, and shows the delivered toast, which stays
visible for the next two elapsed time units and is cleared at the third. -/
theorem c8_send_success_effects (s : UIState) (ch : SlackChannel) (p : SlackPayload)
    (hch : s.selectedChannel = some ch) (hmsg : s.message ≠ "") :
    (handleSendMessage s (JsResult.ok p)).message = "" ∧
    (handleSendMessage s (JsResult.ok p)).channels = s.channels ∧
    (handleSendMessage s (JsResult.ok p)).selectedChannel = s.selectedChannel ∧
    (handleSendMessage s (JsResult.ok p)).successToast = true ∧
    (tickToast (handleSendMessage s (JsResult.ok p))).successToast = true ∧
    (tickToast (tickToast (handleSendMessage s (JsResult.ok p)))).successToast
        = true ∧
    (tickToast (tickToast (tickToast (handleSendMessage s (JsResult.ok p))))).successToast
        = false := by
  have hguard : (s.selectedChannel.isNone || decide (s.message = "")) = false := by
    simp [hch, hmsg]
  simp [handleSendMessage, hguard, tickToast]

/-- Claim C8, witness: a concrete send from a concrete connected state. -/
theorem c8_witness :
    (handleSendMessage
        ⟨"hello", [⟨"C1", "general", false⟩], some ⟨"C1", "general", false⟩,
         false, none, AppStatus.IDLE⟩
        (JsResult.ok ⟨true, none, none⟩)).message = "" ∧
    (tickToast (tickToast (tickToast (handleSendMessage
        ⟨"hello", [⟨"C1", "general", false⟩], some ⟨"C1", "general", false⟩,
         false, none, AppStatus.IDLE⟩
        (JsResult.ok ⟨true, none, none⟩))))).successToast = false := by
  have h := c8_send_success_effects
    ⟨"hello", [⟨"C1", "general", false⟩], some ⟨"C1", "general", false⟩,
     false, none, AppStatus.IDLE⟩
    ⟨"C1", "general", false⟩ ⟨true, none, none⟩ rfl (by decide)
  exact ⟨h.1, h.2.2.2.2.2.2⟩

/-- Claim C9: on a success HTTP status whose body fails to decode with an
exception that is not a TypeError, the request rethrows that exception
unchanged (it is not mapped to the CORS_ERROR marker), and the caller
classifies it as the AUTH class whenever its message is not the reserved
marker string. -/
theorem c9_decode_error_propagates (st : Nat) (e : JsError)
    (hst : responseOk st = true) (he : e.isTypeError = false) :
    request (FetchOutcome.response ⟨st, BodyResult.decodeError e⟩)
        = JsResult.thrown e ∧
    (e.message ≠ "CORS_ERROR" → classifyFetchError e = ErrClass.AUTH) := by
  constructor
  · simp [request, requestTry, hst, he]
  · intro hm
    simp [classifyFetchError, hm]

/-- Claim C9, witness: a concrete SyntaxError-style decode failure. -/
theorem c9_witness :
    request (FetchOutcome.response
        ⟨200, BodyResult.decodeError ⟨false, "Unexpected end of JSON input"⟩⟩)
      = JsResult.thrown ⟨false, "Unexpected end of JSON input"⟩ ∧
    classifyFetchError ⟨false, "Unexpected end of JSON input"⟩ = ErrClass.AUTH := by
  have h := c9_decode_error_propagates 200
    ⟨false, "Unexpected end of JSON input"⟩ (by decide) rfl
  exact ⟨h.1, h.2 (by decide)⟩

/-- Claim C10: a success status whose payload has `ok:true` but no
channels field makes `fetchChannels` resolve with the empty list. -/
theorem c10_missing_channels_empty (st : Nat) (err : Option String)
    (hst : responseOk st = true) :
    fetchChannels (FetchOutcome.response ⟨st, BodyResult.decoded ⟨true, err, none⟩⟩)
      = JsResult.ok [] := by
  simp [fetchChannels, request, requestTry, hst]

/-- Claim C10, witness: a concrete 200 response lacking the channels
field. -/
theorem c10_witness :
    fetchChannels (FetchOutcome.response ⟨200, BodyResult.decoded ⟨true, none, none⟩⟩)
      = JsResult.ok [] :=
  c10_missing_channels_empty 200 none (by decide)

end SlackConnect
